import Mathlib

/-!
Verification of the cloudexec repository (shallow embedding).

Each Python function of the repository relevant to the checked claims is
translated into an executable Lean definition.  External collaborators
(the operating system's signal and wait semantics, the TCP loopback probe,
the msgpack wire format, the libcloud driver and the paramiko channel) are
modelled at their documented boundary: their observable behaviour is a
parameter (an environment record or a predicate), and the repository's
control flow over that behaviour is translated line by line.
-/

namespace Cloudexec

/-! ## Process supervision: cloudexec/common.py, shutdown_process -/

/-- Observable behaviour of a child process under the escalation protocol.
The two flags say whether the process exits within the 5 second wait after
receiving SIGINT, respectively after receiving SIGTERM.  SIGKILL cannot be
caught or ignored, so no flag is needed for it: after kill the process is
dead and a blocking wait returns. -/
structure Proc where
  diesOnInt : Bool
  diesOnTerm : Bool
deriving DecidableEq, Repr

/-- One observable action of shutdown_process.  waitTimeout records whether
the bounded wait observed the exit (True) or raised TimeoutExpired (False). -/
inductive PAct where
  | sigint
  | waitTimeout (succeeded : Bool)
  | terminate
  | kill
  | waitBlocking
deriving DecidableEq, Repr

/-- Translation of common.shutdown_process: send SIGINT, wait 5s; if still
running send SIGTERM, wait 5s; if still running send SIGKILL and wait
unconditionally.  Returns the trace of actions and whether the process has
exited at the moment the function returns. -/
def shutdown_process (p : Proc) : List PAct × Bool :=
  let alive1 := !p.diesOnInt
  let done1 := !alive1
  if done1 then
    ([PAct.sigint, PAct.waitTimeout true], true)
  else
    let alive2 := alive1 && !p.diesOnTerm
    let done2 := !alive2
    if done2 then
      ([PAct.sigint, PAct.waitTimeout false, PAct.terminate, PAct.waitTimeout true], true)
    else
      ([PAct.sigint, PAct.waitTimeout false, PAct.terminate, PAct.waitTimeout false,
        PAct.kill, PAct.waitBlocking], true)

/-! ## Free-port scan: cloudexec/cli.py, Sshd.find_port -/

/-- The loop body of Sshd.find_port.  free p is true when a loopback connect
to port p is refused (connect_ex returns nonzero), i.e. the port is free.
The Python loop has no bound; fuel makes the embedding total, and a result
of none means the loop has not terminated within fuel iterations. -/
def find_port_loop (free : Int → Bool) : Nat → Int → Option Int
  | 0, _ => none
  | fuel + 1, port =>
    let port' := port + 1
    if free port' then some port' else find_port_loop free fuel port'

/-- Translation of Sshd.find_port: port starts at start - 1 and is
incremented before each probe, so the first probed port is start. -/
def find_port (free : Int → Bool) (fuel : Nat) (start : Int) : Option Int :=
  find_port_loop free fuel (start - 1)

/-- Port environment used to exhibit the unbounded scan: every port up to
9000 has a listener, port 9001 and above are free. -/
def busyBelow9001 : Int → Bool := fun p => decide (9000 < p)

/-! ## Keys and the filesystem: cloudexec/common.py, Container and Key -/

/-- The lease record handed to clients (common.Container), at the daemon
level where its fields are Python strings. -/
structure Container where
  ip_address : String
  user : String
  key : String
deriving DecidableEq, Repr

/-- common.Key: name is the private key path. -/
structure Key where
  name : String
deriving DecidableEq, Repr

/-- Key.name_pub, set in Key.__init__ to name + ".pub". -/
def Key.name_pub (k : Key) : String := k.name ++ ".pub"

/-- State of one path on disk.  A present file carries a flag saying whether
removing it fails with an error other than FileNotFoundError (for example a
permission error on the containing directory). -/
inductive FileState where
  | absent
  | present (locked : Bool)
deriving DecidableEq, Repr

/-- Errors os.remove can raise in this model. -/
inductive FsErr where
  | notFound
  | permission
deriving DecidableEq, Repr

/-- A filesystem maps paths to file states. -/
def Fs : Type := String → FileState

/-- Pointwise update of a filesystem. -/
def fsUpdate (fs : Fs) (p : String) (v : FileState) : Fs :=
  fun q => if q = p then v else fs q

/-- os.remove: FileNotFoundError on an absent path, a non-FileNotFound
error on a locked file, otherwise the path becomes absent. -/
def os_remove (fs : Fs) (path : String) : Except FsErr Fs :=
  match fs path with
  | FileState.absent => Except.error FsErr.notFound
  | FileState.present true => Except.error FsErr.permission
  | FileState.present false => Except.ok (fsUpdate fs path FileState.absent)

/-- Translation of Key.__del__: remove the private key swallowing only
FileNotFoundError, then remove the public key swallowing only
FileNotFoundError.  Returns the first uncaught error (if any) and the
filesystem at the point the method exits; an uncaught error on the first
removal skips the second removal. -/
def key_del (fs : Fs) (k : Key) : Option FsErr × Fs :=
  let r1 : Option FsErr × Fs :=
    match os_remove fs k.name with
    | Except.ok fs1 => (none, fs1)
    | Except.error FsErr.notFound => (none, fs)
    | Except.error e => (some e, fs)
  match r1 with
  | (some e, f) => (some e, f)
  | (none, f) =>
    match os_remove f k.name_pub with
    | Except.ok f2 => (none, f2)
    | Except.error FsErr.notFound => (none, f)
    | Except.error e => (some e, f)

/-! ## Remote command streaming: cloudexec/common.py, wrap_execute -/

/-- The paramiko channel at its boundary: the bytes the remote side has
produced on stdout and stderr (recv_ready and recv_stderr_ready hold while
the respective list is nonempty, recv(1) takes one byte), whether
exit_status_ready holds, and the exit status. -/
structure Channel where
  outBuf : List Nat
  errBuf : List Nat
  statusReady : Bool
  status : Nat

/-- The while loop of wrap_execute: each iteration reads at most one byte
from each of stdout and stderr (when ready), writes both through, and
terminates exactly when the exit status is ready and no byte was read in
this iteration.  Fuel makes the loop total; none means the loop has not
terminated within fuel iterations. -/
def wrap_execute_loop (statusReady : Bool) (status : Nat) :
    Nat → List Nat → List Nat → List Nat → List Nat →
    Option (List Nat × List Nat × Nat)
  | 0, _, _, _, _ => none
  | fuel + 1, outBuf, errBuf, writtenOut, writtenErr =>
    let outStep : List Nat × List Nat :=
      match outBuf with
      | [] => ([], [])
      | b :: r => ([b], r)
    let errStep : List Nat × List Nat :=
      match errBuf with
      | [] => ([], [])
      | b :: r => ([b], r)
    let writtenOut' := writtenOut ++ outStep.1
    let writtenErr' := writtenErr ++ errStep.1
    if statusReady && outStep.1.isEmpty && errStep.1.isEmpty then
      some (writtenOut', writtenErr', status)
    else
      wrap_execute_loop statusReady status fuel outStep.2 errStep.2 writtenOut' writtenErr'

/-- Translation of common.wrap_execute, returning the bytes written to
pipe_out, the bytes written to pipe_err, and the remote exit status. -/
def wrap_execute (ch : Channel) (fuel : Nat) : Option (List Nat × List Nat × Nat) :=
  wrap_execute_loop ch.statusReady ch.status fuel ch.outBuf ch.errBuf [] []

/-! ## The msgpack lease encoding: cloudexec/common.py, RPC_TRANSLATION_TABLE

The translation table serializes a Container as the msgpack packing of the
triple (ip_address, user, key) and deserializes by unpacking and calling
the Container constructor on the three results.  Strings are modelled as
their UTF-8 byte sequences; the msgpack str family (fixstr, str 8, str 16,
str 32) and the fixarray header are the relevant part of the wire format. -/

/-- msgpack encoding of one str value from its UTF-8 bytes, choosing the
smallest format as msgpack.packb does; none when the string is too long
for the format (2^32 bytes or more). -/
def packStr (s : List Nat) : Option (List Nat) :=
  let n := s.length
  if n < 32 then some ((160 + n) :: s)
  else if n < 256 then some (217 :: n :: s)
  else if n < 65536 then some (218 :: (n / 256) :: (n % 256) :: s)
  else if n < 4294967296 then
    some (219 :: (n / 16777216) :: (n / 65536 % 256) :: (n / 256 % 256) :: (n % 256) :: s)
  else none

/-- Split off n bytes of payload, failing when fewer are available. -/
def takeBytes (n : Nat) (l : List Nat) : Option (List Nat × List Nat) :=
  if n ≤ l.length then some (l.take n, l.drop n) else none

/-- msgpack decoding of one str value: returns its byte payload and the
remaining input. -/
def parseStr : List Nat → Option (List Nat × List Nat)
  | [] => none
  | b :: rest =>
    if 160 ≤ b ∧ b ≤ 191 then takeBytes (b - 160) rest
    else if b = 217 then
      match rest with
      | n :: r => takeBytes n r
      | [] => none
    else if b = 218 then
      match rest with
      | n1 :: n2 :: r => takeBytes (n1 * 256 + n2) r
      | _ => none
    else if b = 219 then
      match rest with
      | n1 :: n2 :: n3 :: n4 :: r => takeBytes (((n1 * 256 + n2) * 256 + n3) * 256 + n4) r
      | _ => none
    else none

/-- The Container value as it crosses the RPC boundary: each string field
as its UTF-8 byte sequence. -/
structure LeaseRecord where
  ip_address : List Nat
  user : List Nat
  key : List Nat
deriving DecidableEq, Repr

/-- The encoder of RPC_TRANSLATION_TABLE entry 0: msgpack packing of the
triple (ip_address, user, key) — a fixarray of three str values. -/
def rpc_encode (c : LeaseRecord) : Option (List Nat) :=
  match packStr c.ip_address, packStr c.user, packStr c.key with
  | some p1, some p2, some p3 => some (147 :: (p1 ++ p2 ++ p3))
  | _, _, _ => none

/-- The decoder of RPC_TRANSLATION_TABLE entry 0: unpack the fixarray of
three str values (rejecting trailing bytes, as msgpack.unpackb does) and
rebuild the Container from the three fields in order. -/
def rpc_decode (bin : List Nat) : Option LeaseRecord :=
  match bin with
  | 147 :: rest =>
    match parseStr rest with
    | some (s1, r1) =>
      match parseStr r1 with
      | some (s2, r2) =>
        match parseStr r2 with
        | some (s3, r3) => if r3 = [] then some ⟨s1, s2, s3⟩ else none
        | none => none
      | none => none
    | none => none
  | _ => none

/-! ## The session pipeline: cloudexec/cli.py, execute

execute runs five acquisition steps inside a contextlib.ExitStack, each
pushing one release callback, then runs the remote command.  The steps, in
source order: spawn the reverse port-forward process (pushes its shutdown),
connect the SSH client (pushes close), open SFTP (pushes close), upload the
mount key (pushes its removal), mount the filesystem (pushes unmount).
An acquisition failure raises, so later steps do not run; ExitStack.__exit__
then calls every pushed callback in last-in-first-out order, and (per the
contextlib contract) an exception raised by one callback is recorded and
re-raised only after the remaining callbacks have run. -/

/-- The five acquisition steps of execute, in source order. -/
inductive Acq where
  | portForward
  | sshConnect
  | openSftp
  | putKey
  | mountFs
deriving DecidableEq, Repr

/-- The five release callbacks of execute. -/
inductive Rel where
  | shutdownPortForward
  | closeClient
  | closeSftp
  | removeKey
  | unmount
deriving DecidableEq, Repr

/-- The callback each acquisition step pushes onto the ExitStack. -/
def relOf : Acq → Rel
  | Acq.portForward => Rel.shutdownPortForward
  | Acq.sshConnect => Rel.closeClient
  | Acq.openSftp => Rel.closeSftp
  | Acq.putKey => Rel.removeKey
  | Acq.mountFs => Rel.unmount

/-- The acquisition order of execute. -/
def acqOrder : List Acq :=
  [Acq.portForward, Acq.sshConnect, Acq.openSftp, Acq.putKey, Acq.mountFs]

/-- The acquisition phase: run steps in order, pushing each successful
step's callback onto the stack (most recent first); stop at the first
failing step.  Returns the stack and whether all steps succeeded. -/
def acquireGo (ok : Acq → Bool) : List Acq → List Rel → List Rel × Bool
  | [], st => (st, true)
  | a :: rest, st =>
    if ok a then acquireGo ok rest (relOf a :: st) else (st, false)

/-- ExitStack.__exit__ over a stack held most-recent-first: call each
callback in order; a callback that raises (relFail) is recorded and the
loop continues with the remaining callbacks.  Returns the callbacks that
were actually invoked, in invocation order, and whether any raised. -/
def unwindGo (relFail : Rel → Bool) : List Rel → List Rel × Bool
  | [] => ([], false)
  | r :: rest =>
    let failed := relFail r
    let tail := unwindGo relFail rest
    (r :: tail.1, failed || tail.2)

/-- Translation of cli.execute over the step-outcome environment: ok says
which acquisition steps succeed, finalOk whether the final remote command
runs without raising, status its remote exit status, relFail which release
callbacks raise.  Returns the result (none when the session failed before
producing a status), the release callbacks run at teardown in order, and
whether any release callback raised. -/
def execute (ok : Acq → Bool) (finalOk : Bool) (status : Nat) (relFail : Rel → Bool) :
    Option Nat × List Rel × Bool :=
  let acq := acquireGo ok acqOrder []
  let result := if acq.2 && finalOk then some status else none
  let unw := unwindGo relFail acq.1
  (result, unw.1, unw.2)

/-! ## The daemon pool: cloudexec/daemon.py -/

/-- A remote (driver or OS) call issued by the daemon. -/
inductive RCall where
  | connectProvider (account : String)
  | keygen (path : String)
  | listImages (account : String)
  | listSizes (account : String)
  | importKeyPair (account : String) (name : String)
  | createNode (account : String) (name : String)
  | waitUntilRunning (account : String)
  | sshSetup (ip : String)
  | destroyNode (account : String) (node : Nat)
  | deleteKeyPair (account : String) (kpair : Nat)
deriving DecidableEq, Repr

/-- An exception escaping a handler method: a RequestException carrying a
message, or any other Python exception (KeyError, CalledProcessError,
driver/network errors) where the code does not catch it. -/
inductive Err where
  | request (msg : String)
  | other
deriving DecidableEq, Repr

/-- One entry of the driver's image catalog. -/
structure Image where
  id : String
  name : String
deriving DecidableEq, Repr

/-- One entry of the driver's size catalog. -/
structure Size where
  id : String
  name : String
deriving DecidableEq, Repr

/-- Per-profile configuration (daemon.py reads pconfig with item access, so
a missing key raises KeyError; Option models presence). -/
structure PConfig where
  account : Option String
  image_id : Option String
  size_id : Option String

/-- Per-account configuration. -/
structure AConfig where
  provider : Option String
  username : Option String
  api_key : Option String
  region : Option String

/-- The configuration document: profiles and accounts by name. -/
structure Config where
  profiles : String → Option PConfig
  accounts : String → Option AConfig

/-- daemon.Vm: the driver is identified by its account name; node and kpair
are None until the corresponding remote call has succeeded. -/
structure Vm where
  driver : String
  key : Key
  destroyed : Bool
  node : Option Nat
  kpair : Option Nat
  ip_address : String
deriving DecidableEq, Repr

/-- ServerHandler state: configuration, scratch directory, the per-account
driver cache (drivers a = true when account a has a realized driver) and
the profile → Vm pool. -/
structure SState where
  config : Config
  tmpdir : String
  drivers : String → Bool
  vms : String → Option Vm

/-- The external world the daemon acts on: which provider names exist, the
per-account catalogs, whether each remote or OS step succeeds, and the
values the successful steps produce.  The uuid node name and the
base64-derived filesystem-safe key id of daemon.create_vm are abstracted
as environment functions of the profile name. -/
structure Env where
  providerOk : String → Bool
  images : String → List Image
  sizes : String → List Size
  listImagesOk : String → Bool
  listSizesOk : String → Bool
  keygenOk : String → Bool
  keyId : String → String
  vmName : String → String
  importOk : String → Bool
  createNodeOk : String → Bool
  waitOk : String → Bool
  setupOk : String → Bool
  nodeOf : String → Nat
  kpairOf : String → Nat
  ipOf : String → String

/-- Translation of ServerHandler.create_driver: check the account exists,
then inside the try block read provider (a missing key raises KeyError,
caught and wrapped), check the provider name, read the three credential
fields, and cache the realized driver under the account name. -/
def create_driver (env : Env) (s : SState) (account : String) :
    Except Err Unit × SState × List RCall :=
  match s.config.accounts account with
  | none =>
    (Except.error (Err.request ("Unknown account \"" ++ account ++ "\"")), s, [])
  | some aconfig =>
    match aconfig.provider with
    | none =>
      (Except.error (Err.request ("Invalid account configuration for account \""
        ++ account ++ "\", \"provider\" attribute is missing")), s, [])
    | some prov =>
      if env.providerOk (String.toUpper prov) = false then
        (Except.error (Err.request ("Unknown provider \""
          ++ String.toUpper prov ++ "\"")), s, [])
      else
        match aconfig.username with
        | none =>
          (Except.error (Err.request ("Invalid account configuration for account \""
            ++ account ++ "\", \"username\" attribute is missing")), s, [])
        | some _ =>
          match aconfig.api_key with
          | none =>
            (Except.error (Err.request ("Invalid account configuration for account \""
              ++ account ++ "\", \"api_key\" attribute is missing")), s, [])
          | some _ =>
            match aconfig.region with
            | none =>
              (Except.error (Err.request ("Invalid account configuration for account \""
                ++ account ++ "\", \"region\" attribute is missing")), s, [])
            | some _ =>
              (Except.ok (),
               { s with drivers := fun a => if a = account then true else s.drivers a },
               [RCall.connectProvider account])

/-- Translation of Vm.__init__ after the driver and key are in hand: list
the image and size catalogs, filter by exact id, fail with a
RequestException when either filter is empty, then import the public key,
create the node, wait until it is running and run the bootstrap setup over
SSH.  Each remote step can raise; a raise aborts construction. -/
def mkVm (env : Env) (account profile image_id size_id : String) (key : Key) :
    Except Err Vm × List RCall :=
  if env.listImagesOk account = false then
    (Except.error Err.other, [RCall.listImages account])
  else if env.listSizesOk account = false then
    (Except.error Err.other, [RCall.listImages account, RCall.listSizes account])
  else
    let t0 := [RCall.listImages account, RCall.listSizes account]
    let image_filtered := (env.images account).filter (fun i => i.id = image_id)
    let size_filtered := (env.sizes account).filter (fun z => z.id = size_id)
    if image_filtered.isEmpty then
      (Except.error (Err.request ("No VM image with ID \"" ++ image_id ++ "\" found")), t0)
    else if size_filtered.isEmpty then
      (Except.error (Err.request ("No VM size with ID \"" ++ size_id ++ "\" found")), t0)
    else
      let name := env.vmName profile
      if env.importOk profile = false then
        (Except.error Err.other, t0 ++ [RCall.importKeyPair account name])
      else if env.createNodeOk profile = false then
        (Except.error Err.other,
         t0 ++ [RCall.importKeyPair account name, RCall.createNode account name])
      else if env.waitOk profile = false then
        (Except.error Err.other,
         t0 ++ [RCall.importKeyPair account name, RCall.createNode account name,
                RCall.waitUntilRunning account])
      else if env.setupOk profile = false then
        (Except.error Err.other,
         t0 ++ [RCall.importKeyPair account name, RCall.createNode account name,
                RCall.waitUntilRunning account, RCall.sshSetup (env.ipOf profile)])
      else
        (Except.ok
          { driver := account, key := key, destroyed := false,
            node := some (env.nodeOf profile), kpair := some (env.kpairOf profile),
            ip_address := env.ipOf profile },
         t0 ++ [RCall.importKeyPair account name, RCall.createNode account name,
                RCall.waitUntilRunning account, RCall.sshSetup (env.ipOf profile)])

/-- The tail of ServerHandler.create_vm once the profile entry and driver
are in hand: generate the SSH key (a ssh-keygen failure is a
CalledProcessError and propagates unwrapped), read image_id and size_id (a
KeyError is wrapped into a RequestException), construct the Vm and only on
success store it in the pool under the profile name. -/
def vm_stage (env : Env) (tmpdir profile account : String) (pconfig : PConfig)
    (s1 : SState) (t1 : List RCall) : Except Err Unit × SState × List RCall :=
  let kname := tmpdir ++ "/key.ssh." ++ env.keyId profile
  if env.keygenOk kname = false then
    (Except.error Err.other, s1, t1 ++ [RCall.keygen kname])
  else
    let key : Key := { name := kname }
    match pconfig.image_id with
    | none =>
      (Except.error (Err.request ("Invalid profile configuration for profile \""
        ++ profile ++ "\", \"image_id\" attribute is missing")),
       s1, t1 ++ [RCall.keygen kname])
    | some image_id =>
      match pconfig.size_id with
      | none =>
        (Except.error (Err.request ("Invalid profile configuration for profile \""
          ++ profile ++ "\", \"size_id\" attribute is missing")),
         s1, t1 ++ [RCall.keygen kname])
      | some size_id =>
        match mkVm env account profile image_id size_id key with
        | (Except.error e, t2) =>
          (Except.error e, s1, t1 ++ [RCall.keygen kname] ++ t2)
        | (Except.ok vm, t2) =>
          (Except.ok (),
           { s1 with vms := fun q => if q = profile then some vm else s1.vms q },
           t1 ++ [RCall.keygen kname] ++ t2)

/-- Translation of ServerHandler.create_vm: check the profile exists, read
its account (KeyError wrapped), realize the account's driver when it is
not yet cached, then run the provisioning tail (vm_stage). -/
def create_vm (env : Env) (s : SState) (profile : String) :
    Except Err Unit × SState × List RCall :=
  match s.config.profiles profile with
  | none =>
    (Except.error (Err.request ("Unknown profile \"" ++ profile ++ "\"")), s, [])
  | some pconfig =>
    match pconfig.account with
    | none =>
      (Except.error (Err.request ("Invalid profile configuration for profile \""
        ++ profile ++ "\", \"account\" attribute is missing")), s, [])
    | some account =>
      match
        (if s.drivers account = false then create_driver env s account
         else (Except.ok (), s, [])) with
      | (Except.error e, s1, t1) => (Except.error e, s1, t1)
      | (Except.ok _, s1, t1) => vm_stage env s.tmpdir profile account pconfig s1 t1

/-- Translation of ServerHandler.get_container: provision the profile when
it is not in the pool, then build the lease from the pooled Vm. -/
def get_container (env : Env) (s : SState) (profile : String) :
    Except Err Container × SState × List RCall :=
  if (s.vms profile).isNone then
    match create_vm env s profile with
    | (Except.error e, s1, t) => (Except.error e, s1, t)
    | (Except.ok _, s1, t) =>
      match s1.vms profile with
      | some machine =>
        (Except.ok { ip_address := machine.ip_address, user := "root",
                     key := machine.key.name }, s1, t)
      | none => (Except.error Err.other, s1, t)
  else
    match s.vms profile with
    | some machine =>
      (Except.ok { ip_address := machine.ip_address, user := "root",
                   key := machine.key.name }, s, [])
    | none => (Except.error Err.other, s, [])

/-- Translation of Vm.destroy, with fails saying which driver calls raise:
a no-op when already destroyed; otherwise destroy the node when one is
recorded, then delete the provider keypair when one is recorded, and only
after both set the destroyed flag.  A raising driver call propagates,
leaving the flag unset.  Returns the updated handle, the driver calls
attempted in order, and the raising call if any. -/
def Vm.destroy (fails : RCall → Bool) (vm : Vm) : Vm × List RCall × Option RCall :=
  if vm.destroyed then (vm, [], none)
  else
    let step1 : List RCall × Option RCall :=
      match vm.node with
      | some n =>
        let c := RCall.destroyNode vm.driver n
        ([c], if fails c then some c else none)
      | none => ([], none)
    match step1 with
    | (t1, some c) => (vm, t1, some c)
    | (t1, none) =>
      let step2 : List RCall × Option RCall :=
        match vm.kpair with
        | some kp =>
          let c := RCall.deleteKeyPair vm.driver kp
          ([c], if fails c then some c else none)
        | none => ([], none)
      match step2 with
      | (t2, some c) => (vm, t1 ++ t2, some c)
      | (t2, none) => ({ vm with destroyed := true }, t1 ++ t2, none)

/-- Translation of ServerHandler.__del__, the daemon teardown loop over the
pool's values: destroy each Vm in turn; an exception from one destroy
propagates out of the loop, so the remaining handles are not visited.
Returns the handles after the loop, the driver calls attempted, and the
raising call if any. -/
def destroyAll (fails : RCall → Bool) : List Vm → List Vm × List RCall × Option RCall
  | [] => ([], [], none)
  | vm :: rest =>
    match Vm.destroy fails vm with
    | (vm', t, some c) => (vm' :: rest, t, some c)
    | (vm', t, none) =>
      let r := destroyAll fails rest
      (vm' :: r.1, t ++ r.2.1, r.2.2)

/-! ## Concrete instances used by witnesses and counterexamples -/

/-- Port environment with ports up to 4 busy and 5 upward free. -/
def busyBelow5 : Int → Bool := fun p => decide (4 < p)

/-- A key whose private file cannot be removed (non-FileNotFound error). -/
def keyCex : Key := { name := "/tmp/key" }

/-- Filesystem for the Key release counterexample: the private key is
present but locked, the public key is present and removable. -/
def fsCex : Fs := fun p =>
  if p = keyCex.name then FileState.present true
  else if p = keyCex.name_pub then FileState.present false
  else FileState.absent

/-- A key pair whose two files are both present and removable. -/
def keyW : Key := { name := "/scratch/key" }

/-- Filesystem for the Key release witness. -/
def fsW : Fs := fun p =>
  if p = keyW.name then FileState.present false
  else if p = keyW.name_pub then FileState.present false
  else FileState.absent

/-- The default profile name. -/
def defaultProfile : String := "default"

/-- A profile name absent from every configuration below. -/
def ghostProfile : String := "ghost"

/-- A ready Vm cached in the pool under the default profile. -/
def vmDefault : Vm :=
  { driver := "acc", key := { name := "kd" }, destroyed := false,
    node := some 5, kpair := some 6, ip_address := "10.0.0.1" }

/-- A benign environment for the witnesses. -/
def envW : Env :=
  { providerOk := fun _ => true, images := fun _ => [], sizes := fun _ => [],
    listImagesOk := fun _ => true, listSizesOk := fun _ => true,
    keygenOk := fun _ => true, keyId := fun p => p, vmName := fun p => p,
    importOk := fun _ => true, createNodeOk := fun _ => true,
    waitOk := fun _ => true, setupOk := fun _ => true,
    nodeOf := fun _ => 0, kpairOf := fun _ => 0, ipOf := fun _ => "" }

/-- Daemon state whose pool already holds the default profile and whose
configuration is empty. -/
def sW : SState :=
  { config := { profiles := fun _ => none, accounts := fun _ => none },
    tmpdir := "/tmp", drivers := fun _ => false,
    vms := fun q => if q = defaultProfile then some vmDefault else none }

/-- First pooled Vm for the teardown counterexample; destroying its node
raises. -/
def vmPoolA : Vm :=
  { driver := "acc", key := { name := "k1" }, destroyed := false,
    node := some 1, kpair := none, ip_address := "ip1" }

/-- Second pooled Vm for the teardown counterexample; its destroy would
succeed. -/
def vmPoolB : Vm :=
  { driver := "acc", key := { name := "k2" }, destroyed := false,
    node := some 2, kpair := none, ip_address := "ip2" }

/-- Driver behaviour where destroying node 1 raises and everything else
succeeds. -/
def failsPoolA : RCall → Bool := fun c => decide (c = RCall.destroyNode vmPoolA.driver 1)


/-- A handle left over by a provisioning failure before any remote
resource existed: no node, no provider keypair. -/
def vmFresh : Vm :=
  { driver := "acc", key := { name := "kw" }, destroyed := false,
    node := none, kpair := none, ip_address := "ipw" }

/-- An already-destroyed handle. -/
def vmDead : Vm :=
  { driver := "acc", key := { name := "kz" }, destroyed := true,
    node := some 9, kpair := some 8, ip_address := "ipz" }

/-! ## Claim theorems -/

/-- Claim C3: shutdown_process returns only once the process has exited; it
escalates interrupt, then terminate, then kill, skipping each later tier
when an earlier wait observed the exit, and for a process that ignores
interrupt and terminate the kill tier is reached and the unconditional
final wait succeeds. -/
theorem shutdown_process_spec (p : Proc) :
    (shutdown_process p).2 = true
    ∧ (PAct.terminate ∈ (shutdown_process p).1 ↔ p.diesOnInt = false)
    ∧ (PAct.kill ∈ (shutdown_process p).1 ↔ (p.diesOnInt = false ∧ p.diesOnTerm = false))
    ∧ (p.diesOnInt = true → (shutdown_process p).1 = [PAct.sigint, PAct.waitTimeout true])
    ∧ (p.diesOnInt = false → p.diesOnTerm = false →
        (shutdown_process p).1
          = [PAct.sigint, PAct.waitTimeout false, PAct.terminate, PAct.waitTimeout false,
             PAct.kill, PAct.waitBlocking]) := by
  rcases p with ⟨i, t⟩
  cases i <;> cases t <;> decide

/-- Witness for C3: a process ignoring interrupt and terminate reaches the
kill tier and shutdown_process returns with the process exited. -/
theorem shutdown_process_spec_witness :
    (shutdown_process { diesOnInt := false, diesOnTerm := false }).1
      = [PAct.sigint, PAct.waitTimeout false, PAct.terminate, PAct.waitTimeout false,
         PAct.kill, PAct.waitBlocking]
    ∧ (shutdown_process { diesOnInt := false, diesOnTerm := false }).2 = true :=
  ⟨(shutdown_process_spec { diesOnInt := false, diesOnTerm := false }).2.2.2.2 rfl rfl,
   (shutdown_process_spec { diesOnInt := false, diesOnTerm := false }).1⟩

set_option maxRecDepth 10000 in
/-- Counterexample for C4: with every port up to 9000 occupied, find_port
started at 8000 scans past the claimed bound start + 1000 and returns port
9001 instead of failing with NoPortAvailableError once the bounded range
is exhausted. -/
theorem find_port_cex :
    find_port busyBelow9001 1500 8000 = some 9001 ∧ 8000 + 1000 < 9001 := by
  exact ⟨by decide, by decide⟩

/-- Soundness of the scan loop: a returned port is free, lies above the
starting point, and every port strictly between them is occupied. -/
theorem find_port_loop_sound (free : Int → Bool) :
    ∀ (fuel : Nat) (port p : Int), find_port_loop free fuel port = some p →
      free p = true ∧ port < p ∧ ∀ q, port < q → q < p → free q = false := by
  intro fuel
  induction fuel with
  | zero => intro port p h; simp [find_port_loop] at h
  | succ n ih =>
    intro port p h
    simp only [find_port_loop] at h
    cases hf : free (port + 1) with
    | true =>
      rw [hf] at h
      simp at h
      subst h
      exact ⟨hf, by omega, fun q h1 h2 => by omega⟩
    | false =>
      rw [hf] at h
      simp at h
      obtain ⟨hfp, hlt, hmin⟩ := ih (port + 1) p h
      refine ⟨hfp, by omega, fun q hq1 hq2 => ?_⟩
      by_cases hq : q = port + 1
      · rw [hq]; exact hf
      · exact hmin q (by omega) hq2

/-- When no port is free the scan loop never terminates (it exhausts any
amount of fuel). -/
theorem find_port_loop_spin (free : Int → Bool) (hfree : ∀ q, free q = false) :
    ∀ (fuel : Nat) (port : Int), find_port_loop free fuel port = none := by
  intro fuel
  induction fuel with
  | zero => intro port; rfl
  | succ n ih => intro port; simp [find_port_loop, hfree, ih]

/-- Claim C4 amended: find_port probes ports sequentially from start upward
and any returned port is the smallest free port at or above start; the scan
has no upper bound and never fails with NoPortAvailableError — in an
environment with no free port it simply never terminates. -/
theorem find_port_amended (free : Int → Bool) (fuel : Nat) (start : Int) :
    (∀ p, find_port free fuel start = some p →
        free p = true ∧ start ≤ p ∧ ∀ q, start ≤ q → q < p → free q = false)
    ∧ ((∀ q, free q = false) → find_port free fuel start = none) := by
  constructor
  · intro p h
    obtain ⟨h1, h2, h3⟩ := find_port_loop_sound free fuel (start - 1) p h
    exact ⟨h1, by omega, fun q hq1 hq2 => h3 q (by omega) hq2⟩
  · intro hfree
    exact find_port_loop_spin free hfree fuel (start - 1)

/-- Witness for the amended C4: starting from 0 with ports up to 4 busy the
scan returns 5, which is free while the earlier port 3 is not; and with no
free port at all the scan exhausts its fuel. -/
theorem find_port_amended_witness :
    find_port busyBelow5 30 0 = some 5
    ∧ busyBelow5 5 = true ∧ (0 : Int) ≤ 5 ∧ busyBelow5 3 = false
    ∧ find_port (fun _ => false) 7 2 = none := by
  have h : find_port busyBelow5 30 0 = some 5 := by decide
  have hm := (find_port_amended busyBelow5 30 0).1 5 h
  exact ⟨h, hm.1, hm.2.1, hm.2.2 3 (by decide) (by decide),
    (find_port_amended (fun _ => false) 7 2).2 (fun q => rfl)⟩



/-- The acquisition phase pushes exactly the callbacks of the successful
prefix of steps, most recent first. -/
theorem acquireGo_fst (ok : Acq → Bool) :
    ∀ (l : List Acq) (st : List Rel),
      (acquireGo ok l st).1 = ((l.takeWhile ok).map relOf).reverse ++ st := by
  intro l
  induction l with
  | nil => intro st; simp [acquireGo]
  | cons a rest ih =>
    intro st
    cases h : ok a with
    | false => simp [acquireGo, List.takeWhile_cons, h]
    | true => simp [acquireGo, List.takeWhile_cons, h, ih]

/-- ExitStack.__exit__ invokes every pushed callback, whatever the failure
pattern of the callbacks. -/
theorem unwindGo_fst (relFail : Rel → Bool) :
    ∀ l : List Rel, (unwindGo relFail l).1 = l := by
  intro l
  induction l with
  | nil => rfl
  | cons r rest ih => simp [unwindGo, ih]

/-- Claim C2: at session teardown the release actions run are exactly the
callbacks pushed by the acquisition steps that succeeded, in exact reverse
order of acquisition; their number equals the number of successful
acquisition steps; and the set of actions run does not depend on which
release actions fail. -/
theorem execute_release_stack (ok : Acq → Bool) (finalOk : Bool) (status : Nat)
    (relFail : Rel → Bool) :
    (execute ok finalOk status relFail).2.1 = ((acqOrder.takeWhile ok).map relOf).reverse
    ∧ ((execute ok finalOk status relFail).2.1).length = (acqOrder.takeWhile ok).length
    ∧ (execute ok finalOk status relFail).2.1
        = (execute ok finalOk status (fun _ => false)).2.1 := by
  have h1 : ∀ rf : Rel → Bool, (execute ok finalOk status rf).2.1
      = ((acqOrder.takeWhile ok).map relOf).reverse := by
    intro rf
    simp [execute, unwindGo_fst, acquireGo_fst]
  refine ⟨h1 relFail, ?_, (h1 relFail).trans (h1 (fun _ => false)).symm⟩
  rw [h1 relFail]
  simp

/-- The public key path differs from the private key path. -/
theorem name_pub_ne (k : Key) : k.name_pub ≠ k.name := by
  intro h
  have hlen := congrArg String.length h
  have h4 : (".pub" : String).length = 4 := rfl
  rw [Key.name_pub, String.length_append, h4] at hlen
  omega

/-- Counterexample for C8: when removing the private key fails with an
error other than FileNotFoundError, Key.__del__ raises it (nothing is
logged) and the public key file survives the release. -/
theorem key_del_cex :
    key_del fsCex keyCex = (some FsErr.permission, fsCex)
    ∧ fsCex keyCex.name_pub = FileState.present false := by
  constructor
  · rfl
  · rfl

/-- Claim C8 amended: release deletes both key files when neither removal
hits an error other than FileNotFoundError, and a missing file is not an
error; but an error of any other kind is raised, not logged, and an error
on the private-key removal leaves the public key in place. -/
theorem key_del_amended (fs : Fs) (k : Key) :
    (fs k.name ≠ FileState.present true → fs k.name_pub ≠ FileState.present true →
      (key_del fs k).1 = none
      ∧ (key_del fs k).2 k.name = FileState.absent
      ∧ (key_del fs k).2 k.name_pub = FileState.absent)
    ∧ (fs k.name = FileState.present true →
      key_del fs k = (some FsErr.permission, fs)) := by
  have hne : k.name ≠ k.name_pub := fun h => name_pub_ne k h.symm
  constructor
  · intro h1 h2
    unfold key_del os_remove
    cases hn : fs k.name with
    | absent =>
      cases hp : fs k.name_pub with
      | absent => simp [hp, hn]
      | present locked =>
        cases locked with
        | true => exact absurd hp h2
        | false => simp [hp, hn, fsUpdate, hne, name_pub_ne k]
    | present locked =>
      cases locked with
      | true => exact absurd hn h1
      | false =>
        have hp' : fsUpdate fs k.name FileState.absent k.name_pub = fs k.name_pub := by
          simp [fsUpdate, name_pub_ne k]
        cases hp : fs k.name_pub with
        | absent => simp [hp, hn, hp', fsUpdate]
        | present locked2 =>
          cases locked2 with
          | true => exact absurd hp h2
          | false => simp [hp, hn, hp', fsUpdate, hne, name_pub_ne k]
  · intro h
    unfold key_del os_remove
    simp [h]

/-- Witness for the amended C8: with both files present and removable,
release raises nothing and both files are gone. -/
theorem key_del_amended_witness :
    (key_del fsW keyW).1 = none
    ∧ (key_del fsW keyW).2 keyW.name = FileState.absent
    ∧ (key_del fsW keyW).2 keyW.name_pub = FileState.absent :=
  (key_del_amended fsW keyW).1 (by decide) (by decide)



/-- With the exit status ready, the streaming loop drains both buffers
completely before terminating, appending every byte in order to the bytes
already written. -/
theorem wrap_execute_loop_drains (status : Nat) :
    ∀ (fuel : Nat) (ob eb wo we : List Nat), ob.length + eb.length < fuel →
      wrap_execute_loop true status fuel ob eb wo we = some (wo ++ ob, we ++ eb, status) := by
  intro fuel
  induction fuel with
  | zero => intro ob eb wo we h; omega
  | succ n ih =>
    intro ob eb wo we h
    cases ob with
    | nil =>
      cases eb with
      | nil => simp [wrap_execute_loop]
      | cons b r =>
        have hr : List.length ([] : List Nat) + r.length < n := by
          simp at h ⊢
          omega
        have hstep := ih [] r wo (we ++ [b]) hr
        simp only [List.append_nil] at hstep
        simp [wrap_execute_loop, hstep, List.append_assoc]
    | cons a r1 =>
      cases eb with
      | nil =>
        have hr : r1.length + List.length ([] : List Nat) < n := by
          simp at h ⊢
          omega
        have hstep := ih r1 [] (wo ++ [a]) we hr
        simp only [List.append_nil] at hstep
        simp [wrap_execute_loop, hstep, List.append_assoc]
      | cons b r2 =>
        have hr : r1.length + r2.length < n := by
          simp at h ⊢
          omega
        have hstep := ih r1 r2 (wo ++ [a]) (we ++ [b]) hr
        simp [wrap_execute_loop, hstep, List.append_assoc]

/-- With the exit status never ready the loop never terminates: it
exhausts any amount of fuel. -/
theorem wrap_execute_loop_spin (status : Nat) :
    ∀ (fuel : Nat) (ob eb wo we : List Nat),
      wrap_execute_loop false status fuel ob eb wo we = none := by
  intro fuel
  induction fuel with
  | zero => intro ob eb wo we; rfl
  | succ n ih => intro ob eb wo we; cases ob <;> cases eb <;> simp [wrap_execute_loop, ih]

/-- Claim C9: wrap_execute reads byte-by-byte from whichever stream has
data; once the exit status is ready it terminates exactly when no byte was
pending in the iteration, returning the remote status with every stdout and
stderr byte written through in order — no trailing bytes are dropped.
While the status is not ready it never returns. -/
theorem wrap_execute_no_trailing_loss (ch : Channel) (fuel : Nat) :
    (ch.statusReady = true → ch.outBuf.length + ch.errBuf.length < fuel →
      wrap_execute ch fuel = some (ch.outBuf, ch.errBuf, ch.status))
    ∧ (ch.statusReady = false → wrap_execute ch fuel = none) := by
  constructor
  · intro hs hf
    unfold wrap_execute
    rw [hs]
    simpa using wrap_execute_loop_drains ch.status fuel ch.outBuf ch.errBuf [] [] hf
  · intro hs
    unfold wrap_execute
    rw [hs]
    exact wrap_execute_loop_spin ch.status fuel ch.outBuf ch.errBuf [] []

/-- Witness for C9: a channel with pending stdout bytes 1, 2 and stderr
byte 3 and a ready status 7 yields exactly those bytes and that status. -/
theorem wrap_execute_witness :
    wrap_execute { outBuf := [1, 2], errBuf := [3], statusReady := true, status := 7 } 4
      = some ([1, 2], [3], 7) :=
  (wrap_execute_no_trailing_loss
    { outBuf := [1, 2], errBuf := [3], statusReady := true, status := 7 } 4).1 rfl (by decide)



/-- Taking exactly the length of a prefix returns that prefix and the rest. -/
theorem takeBytes_append (s rest : List Nat) :
    takeBytes s.length (s ++ rest) = some (s, rest) := by
  unfold takeBytes
  rw [if_pos (by simp)]
  simp

/-- The str decoder inverts the str encoder on any remaining input. -/
theorem parseStr_packStr (s enc : List Nat) (h : packStr s = some enc) (rest : List Nat) :
    parseStr (enc ++ rest) = some (s, rest) := by
  simp only [packStr] at h
  by_cases h32 : s.length < 32
  · rw [if_pos h32] at h
    simp only [Option.some.injEq] at h
    subst h
    rw [List.cons_append]
    simp only [parseStr]
    rw [if_pos (And.intro (by omega) (by omega))]
    rw [show 160 + s.length - 160 = s.length from by omega]
    exact takeBytes_append s rest
  · rw [if_neg h32] at h
    by_cases h256 : s.length < 256
    · rw [if_pos h256] at h
      simp only [Option.some.injEq] at h
      subst h
      rw [List.cons_append, List.cons_append]
      simp only [parseStr]
      rw [if_neg (by decide), if_pos trivial]
      exact takeBytes_append s rest
    · rw [if_neg h256] at h
      by_cases h65536 : s.length < 65536
      · rw [if_pos h65536] at h
        simp only [Option.some.injEq] at h
        subst h
        rw [List.cons_append, List.cons_append, List.cons_append]
        simp only [parseStr]
        rw [if_neg (by decide), if_neg (by decide), if_pos trivial]
        rw [show s.length / 256 * 256 + s.length % 256 = s.length from by omega]
        exact takeBytes_append s rest
      · rw [if_neg h65536] at h
        by_cases h32b : s.length < 4294967296
        · rw [if_pos h32b] at h
          simp only [Option.some.injEq] at h
          subst h
          rw [List.cons_append, List.cons_append, List.cons_append, List.cons_append,
            List.cons_append]
          simp only [parseStr]
          rw [if_neg (by decide), if_neg (by decide), if_neg (by decide), if_pos trivial]
          rw [show ((s.length / 16777216 * 256 + s.length / 65536 % 256) * 256
              + s.length / 256 % 256) * 256 + s.length % 256 = s.length from by omega]
          exact takeBytes_append s rest
        · rw [if_neg h32b] at h
          exact absurd h (by simp)

/-- Claim C10: decoding the RPC translation table's encoding of a lease
record returns a record with the same ip_address, user and key fields —
the msgpack round trip is the identity on leases. -/
theorem rpc_roundtrip (c : LeaseRecord) (bin : List Nat) (h : rpc_encode c = some bin) :
    rpc_decode bin = some c := by
  unfold rpc_encode at h
  cases h1 : packStr c.ip_address with
  | none => rw [h1] at h; exact absurd h (by simp)
  | some p1 =>
    cases h2 : packStr c.user with
    | none => rw [h1, h2] at h; exact absurd h (by simp)
    | some p2 =>
      cases h3 : packStr c.key with
      | none => rw [h1, h2, h3] at h; exact absurd h (by simp)
      | some p3 =>
        rw [h1, h2, h3] at h
        simp only [Option.some.injEq] at h
        subst h
        have e1 := parseStr_packStr c.ip_address p1 h1 (p2 ++ p3)
        have e2 := parseStr_packStr c.user p2 h2 p3
        have e3 := parseStr_packStr c.key p3 h3 []
        rw [List.append_nil] at e3
        simp [rpc_decode, List.append_assoc, e1, e2, e3]

/-- Witness for C10: a concrete lease (UTF-8 bytes of "hi", "root", "k")
encodes to the msgpack fixarray of three fixstr values and decodes back to
itself. -/
theorem rpc_roundtrip_witness :
    rpc_encode { ip_address := [104, 105], user := [114, 111, 111, 116], key := [107] }
        = some [147, 162, 104, 105, 164, 114, 111, 111, 116, 161, 107]
    ∧ rpc_decode [147, 162, 104, 105, 164, 114, 111, 111, 116, 161, 107]
        = some { ip_address := [104, 105], user := [114, 111, 111, 116], key := [107] } :=
  ⟨by decide, rpc_roundtrip _ _ (by decide)⟩



/-- Destroying an already-destroyed handle is a no-op that issues no
driver calls. -/
theorem destroy_of_destroyed (fails : RCall → Bool) (vm : Vm)
    (h : vm.destroyed = true) : Vm.destroy fails vm = (vm, [], none) := by
  unfold Vm.destroy
  rw [if_pos h]

/-- A destroy that raised no error leaves the handle flagged destroyed. -/
theorem destroy_ok_flag (fails : RCall → Bool) (vm : Vm)
    (h : (Vm.destroy fails vm).2.2 = none) :
    ((Vm.destroy fails vm).1).destroyed = true := by
  rcases vm with ⟨d, k, dest, node, kp, ip⟩
  cases dest with
  | true => simp [Vm.destroy]
  | false =>
    cases node with
    | none =>
      cases kp with
      | none => simp [Vm.destroy]
      | some kpv =>
        cases hf2 : fails (RCall.deleteKeyPair d kpv) with
        | true => simp [Vm.destroy, hf2] at h
        | false => simp [Vm.destroy, hf2]
    | some n =>
      cases hf : fails (RCall.destroyNode d n) with
      | true => simp [Vm.destroy, hf] at h
      | false =>
        cases kp with
        | none => simp [Vm.destroy, hf]
        | some kpv =>
          cases hf2 : fails (RCall.deleteKeyPair d kpv) with
          | true => simp [Vm.destroy, hf, hf2] at h
          | false => simp [Vm.destroy, hf, hf2]

/-- A destroy that raised returns the handle unchanged (the destroyed flag
is still unset). -/
theorem destroy_error_unchanged (fails : RCall → Bool) (vm : Vm) (c : RCall)
    (h : (Vm.destroy fails vm).2.2 = some c) :
    (Vm.destroy fails vm).1 = vm := by
  rcases vm with ⟨d, k, dest, node, kp, ip⟩
  cases dest with
  | true => simp [Vm.destroy] at h
  | false =>
    cases node with
    | none =>
      cases kp with
      | none => simp [Vm.destroy] at h
      | some kpv =>
        cases hf2 : fails (RCall.deleteKeyPair d kpv) with
        | true => simp [Vm.destroy, hf2]
        | false => simp [Vm.destroy, hf2] at h
    | some n =>
      cases hf : fails (RCall.destroyNode d n) with
      | true => simp [Vm.destroy, hf]
      | false =>
        cases kp with
        | none => simp [Vm.destroy, hf] at h
        | some kpv =>
          cases hf2 : fails (RCall.deleteKeyPair d kpv) with
          | true => simp [Vm.destroy, hf, hf2]
          | false => simp [Vm.destroy, hf, hf2] at h

/-- Claim C6: destroy is idempotent — after a destroy that completed, a
second destroy is a no-op issuing no driver calls; a handle with no node
issues no node-destroy call and one with no provider keypair issues no
keypair-delete call, so a partially created handle is safely destroyable
(shown outright for a handle with neither). -/
theorem vm_destroy_spec (fails : RCall → Bool) (vm : Vm) :
    ((Vm.destroy fails vm).2.2 = none →
      Vm.destroy fails (Vm.destroy fails vm).1 = ((Vm.destroy fails vm).1, [], none))
    ∧ (vm.node = none → ∀ a n, RCall.destroyNode a n ∉ (Vm.destroy fails vm).2.1)
    ∧ (vm.kpair = none → ∀ a kp, RCall.deleteKeyPair a kp ∉ (Vm.destroy fails vm).2.1)
    ∧ (vm.destroyed = false → vm.node = none → vm.kpair = none →
      Vm.destroy fails vm = ({ vm with destroyed := true }, [], none)) := by
  refine ⟨?_, ?_, ?_, ?_⟩
  · intro h
    exact destroy_of_destroyed fails _ (destroy_ok_flag fails vm h)
  · intro hn a n
    rcases vm with ⟨d, k, dest, node, kp, ip⟩
    simp at hn
    subst hn
    cases dest with
    | true => simp [Vm.destroy]
    | false =>
      cases kp with
      | none => simp [Vm.destroy]
      | some kpv =>
        cases hf2 : fails (RCall.deleteKeyPair d kpv) with
        | true => simp [Vm.destroy, hf2]
        | false => simp [Vm.destroy, hf2]
  · intro hk a kp
    rcases vm with ⟨d, k, dest, node, kpa, ip⟩
    simp at hk
    subst hk
    cases dest with
    | true => simp [Vm.destroy]
    | false =>
      cases node with
      | none => simp [Vm.destroy]
      | some n =>
        cases hf : fails (RCall.destroyNode d n) with
        | true => simp [Vm.destroy, hf]
        | false => simp [Vm.destroy, hf]
  · intro hd hn hk
    rcases vm with ⟨d, k, dest, node, kp, ip⟩
    simp at hd hn hk
    subst hd
    subst hn
    subst hk
    simp [Vm.destroy]

/-- Witness for C6: a handle left by a provisioning failure before any
remote resource existed (no node, no keypair) destroys cleanly with no
driver calls. -/
theorem vm_destroy_witness :
    Vm.destroy (fun _ => false) vmFresh = ({ vmFresh with destroyed := true }, [], none) :=
  (vm_destroy_spec (fun _ => false) vmFresh).2.2.2 rfl rfl rfl

/-- Counterexample for C7: with two live VMs pooled and the first VM's
node-destroy raising, the teardown loop stops at the first VM and the
second VM — though live and destroyable — is left undestroyed, so an error
destroying one VM does prevent the destruction of the remaining ones. -/
theorem destroyAll_cex :
    destroyAll failsPoolA [vmPoolA, vmPoolB]
      = ([vmPoolA, vmPoolB], [RCall.destroyNode vmPoolA.driver 1],
         some (RCall.destroyNode vmPoolA.driver 1))
    ∧ vmPoolB.destroyed = false
    ∧ (Vm.destroy (fun _ => false) vmPoolB).2.2 = none := by
  refine ⟨by decide, by decide, by decide⟩

/-- Every destroy succeeds when no driver call fails. -/
theorem destroy_no_failure (fails : RCall → Bool) (hf : ∀ c, fails c = false) (vm : Vm) :
    (Vm.destroy fails vm).2.2 = none := by
  rcases vm with ⟨d, k, dest, node, kp, ip⟩
  cases dest <;> cases node <;> cases kp <;> simp [Vm.destroy, hf]

/-- Claim C7 amended: the teardown loop destroys every pooled VM when no
driver call fails, destroying an already-destroyed handle is a no-op, but
an error while destroying one VM aborts the loop and the remaining VMs are
left untouched. -/
theorem destroyAll_amended (fails : RCall → Bool) (vms : List Vm) :
    ((∀ c, fails c = false) → ∀ vm' ∈ (destroyAll fails vms).1, vm'.destroyed = true)
    ∧ (∀ vm, vm.destroyed = true → Vm.destroy fails vm = (vm, [], none))
    ∧ (∀ vm rest c, (Vm.destroy fails vm).2.2 = some c →
        (destroyAll fails (vm :: rest)).1 = vm :: rest) := by
  refine ⟨?_, fun vm h => destroy_of_destroyed fails vm h, ?_⟩
  · intro hf
    induction vms with
    | nil => intro vm' hm; simp [destroyAll] at hm
    | cons vm rest ih =>
      intro vm' hm
      have hok := destroy_no_failure fails hf vm
      have hflag := destroy_ok_flag fails vm hok
      unfold destroyAll at hm
      cases hdes : Vm.destroy fails vm with
      | mk v1 t2 =>
        cases t2 with
        | mk tr err =>
          rw [hdes] at hm hok hflag
          simp at hok
          subst hok
          simp at hm hflag
          rcases hm with hm | hm
          · rw [hm]; exact hflag
          · exact ih vm' hm
  · intro vm rest c h
    have hu := destroy_error_unchanged fails vm c h
    unfold destroyAll
    cases hdes : Vm.destroy fails vm with
    | mk v1 t2 =>
      cases t2 with
      | mk tr err =>
        rw [hdes] at h hu
        simp at h hu
        subst h
        simp [hu]

/-- Witness for the amended C7: destroying an already-destroyed handle is
a no-op with no driver calls. -/
theorem destroyAll_amended_witness :
    Vm.destroy (fun _ => false) vmDead = (vmDead, [], none) :=
  (destroyAll_amended (fun _ => false) []).2.1 vmDead rfl



/-- create_driver touches only the driver cache: the vm pool of the
resulting state is that of the input state, on every path. -/
theorem create_driver_vms (env : Env) (s : SState) (account : String) :
    ((create_driver env s account).2.1).vms = s.vms := by
  unfold create_driver
  split
  · rfl
  · split
    · rfl
    · split
      · rfl
      · split
        · rfl
        · split
          · rfl
          · split
            · rfl
            · rfl

/-- A failing provisioning tail leaves the pool of its input state. -/
theorem vm_stage_error_vms (env : Env) (tmpdir profile account : String)
    (pconfig : PConfig) (s1 : SState) (t1 : List RCall)
    (e : Err) (s' : SState) (t : List RCall)
    (h : vm_stage env tmpdir profile account pconfig s1 t1 = (Except.error e, s', t)) :
    s'.vms = s1.vms := by
  simp only [vm_stage] at h
  cases hkg : env.keygenOk (tmpdir ++ "/key.ssh." ++ env.keyId profile) with
  | false =>
    rw [hkg] at h
    simp at h
    obtain ⟨h1, h2, h3⟩ := h
    subst h2
    rfl
  | true =>
    rw [hkg] at h
    simp only [Bool.true_eq_false, if_false] at h
    cases hi : pconfig.image_id with
    | none =>
      rw [hi] at h
      simp at h
      obtain ⟨h1, h2, h3⟩ := h
      subst h2
      rfl
    | some image_id =>
      rw [hi] at h
      simp only at h
      cases hz : pconfig.size_id with
      | none =>
        rw [hz] at h
        simp at h
        obtain ⟨h1, h2, h3⟩ := h
        subst h2
        rfl
      | some size_id =>
        rw [hz] at h
        simp only at h
        cases hmk : mkVm env account profile image_id size_id
            { name := tmpdir ++ "/key.ssh." ++ env.keyId profile } with
        | mk me mt =>
          rw [hmk] at h
          cases me with
          | error e2 =>
            simp at h
            obtain ⟨h1, h2, h3⟩ := h
            subst h2
            rfl
          | ok vm => simp at h

/-- A successful provisioning tail stores the profile in the pool. -/
theorem vm_stage_ok_vms (env : Env) (tmpdir profile account : String)
    (pconfig : PConfig) (s1 : SState) (t1 : List RCall)
    (u : Unit) (s' : SState) (t : List RCall)
    (h : vm_stage env tmpdir profile account pconfig s1 t1 = (Except.ok u, s', t)) :
    (s'.vms profile).isSome = true := by
  simp only [vm_stage] at h
  cases hkg : env.keygenOk (tmpdir ++ "/key.ssh." ++ env.keyId profile) with
  | false =>
    rw [hkg] at h
    simp at h
  | true =>
    rw [hkg] at h
    simp only [Bool.true_eq_false, if_false] at h
    cases hi : pconfig.image_id with
    | none =>
      rw [hi] at h
      simp at h
    | some image_id =>
      rw [hi] at h
      simp only at h
      cases hz : pconfig.size_id with
      | none =>
        rw [hz] at h
        simp at h
      | some size_id =>
        rw [hz] at h
        simp only at h
        cases hmk : mkVm env account profile image_id size_id
            { name := tmpdir ++ "/key.ssh." ++ env.keyId profile } with
        | mk me mt =>
          rw [hmk] at h
          cases me with
          | error e2 => simp at h
          | ok vm =>
            simp at h
            obtain ⟨h1, h2⟩ := h
            subst h1
            simp

/-- A failing create_vm leaves the vm pool exactly as it was. -/
theorem create_vm_error_vms (env : Env) (s : SState) (profile : String)
    (e : Err) (s' : SState) (t : List RCall)
    (h : create_vm env s profile = (Except.error e, s', t)) :
    s'.vms = s.vms := by
  unfold create_vm at h
  cases hp : s.config.profiles profile with
  | none =>
    rw [hp] at h
    simp at h
    obtain ⟨h1, h2, h3⟩ := h
    subst h2
    rfl
  | some pconfig =>
    rw [hp] at h
    simp only at h
    cases ha : pconfig.account with
    | none =>
      rw [ha] at h
      simp at h
      obtain ⟨h1, h2, h3⟩ := h
      subst h2
      rfl
    | some account =>
      rw [ha] at h
      simp only at h
      cases hd : s.drivers account with
      | true =>
        rw [hd] at h
        simp only [Bool.true_eq_false, if_false] at h
        exact vm_stage_error_vms env s.tmpdir profile account pconfig s [] e s' t h
      | false =>
        rw [hd] at h
        simp only [if_true] at h
        cases hcd : create_driver env s account with
        | mk ce crest =>
          cases crest with
          | mk cs ct =>
            have hcsvms : cs.vms = s.vms := by
              have := create_driver_vms env s account
              rw [hcd] at this
              exact this
            rw [hcd] at h
            cases ce with
            | error e2 =>
              simp at h
              obtain ⟨h1, h2, h3⟩ := h
              subst h2
              exact hcsvms
            | ok u2 =>
              simp only at h
              rw [(vm_stage_error_vms env s.tmpdir profile account pconfig cs ct e s' t h :
                s'.vms = cs.vms)]
              exact hcsvms

/-- A successful create_vm stores the profile in the pool. -/
theorem create_vm_ok_vms (env : Env) (s : SState) (profile : String)
    (u : Unit) (s' : SState) (t : List RCall)
    (h : create_vm env s profile = (Except.ok u, s', t)) :
    (s'.vms profile).isSome = true := by
  unfold create_vm at h
  cases hp : s.config.profiles profile with
  | none =>
    rw [hp] at h
    simp at h
  | some pconfig =>
    rw [hp] at h
    simp only at h
    cases ha : pconfig.account with
    | none =>
      rw [ha] at h
      simp at h
    | some account =>
      rw [ha] at h
      simp only at h
      cases hd : s.drivers account with
      | true =>
        rw [hd] at h
        simp only [Bool.true_eq_false, if_false] at h
        exact vm_stage_ok_vms env s.tmpdir profile account pconfig s [] u s' t h
      | false =>
        rw [hd] at h
        simp only [if_true] at h
        cases hcd : create_driver env s account with
        | mk ce crest =>
          cases crest with
          | mk cs ct =>
            rw [hcd] at h
            cases ce with
            | error e2 => simp at h
            | ok u2 =>
              simp only at h
              exact vm_stage_ok_vms env s.tmpdir profile account pconfig cs ct u s' t h



/-- A successful get_container returns the lease built from the Vm pooled
under the profile in the resulting state. -/
theorem get_container_ok_shape (env : Env) (s : SState) (profile : String)
    (c : Container) (s' : SState) (t : List RCall)
    (h : get_container env s profile = (Except.ok c, s', t)) :
    ∃ m, s'.vms profile = some m
      ∧ c = { ip_address := m.ip_address, user := "root", key := m.key.name } := by
  unfold get_container at h
  cases hv : s.vms profile with
  | some m =>
    rw [hv] at h
    simp at h
    obtain ⟨h1, h2, h3⟩ := h
    subst h2
    exact ⟨m, hv, h1.symm⟩
  | none =>
    rw [hv] at h
    simp only [Option.isNone_none, if_true] at h
    cases hcv : create_vm env s profile with
    | mk ce crest =>
      cases crest with
      | mk cs ct =>
        rw [hcv] at h
        cases ce with
        | error e2 => simp at h
        | ok u =>
          simp only at h
          cases hm : cs.vms profile with
          | none =>
            rw [hm] at h
            simp at h
          | some m =>
            rw [hm] at h
            simp at h
            obtain ⟨h1, h2, h3⟩ := h
            subst h2
            exact ⟨m, hm, h1.symm⟩

/-- Claim C1: once a profile is provisioned, a further get_container call
for it returns the same lease (same address and key), performs no remote
call at all, and leaves the daemon state untouched. -/
theorem get_container_cached (env : Env) (s : SState) (profile : String)
    (c : Container) (s' : SState) (t : List RCall)
    (h : get_container env s profile = (Except.ok c, s', t)) :
    get_container env s' profile = (Except.ok c, s', []) := by
  obtain ⟨m, hm, hc⟩ := get_container_ok_shape env s profile c s' t h
  subst hc
  unfold get_container
  rw [hm]
  simp

/-- Witness for C1: with the default profile already pooled, a lease
request returns the cached address and key with no remote call and no
state change, and a repeated request returns the same lease. -/
theorem get_container_cached_witness :
    get_container envW sW defaultProfile
      = (Except.ok { ip_address := "10.0.0.1", user := "root", key := "kd" }, sW, [])
    ∧ get_container envW sW defaultProfile
      = (Except.ok { ip_address := "10.0.0.1", user := "root", key := "kd" }, sW, []) :=
  ⟨rfl, get_container_cached envW sW defaultProfile
    { ip_address := "10.0.0.1", user := "root", key := "kd" } sW [] rfl⟩

/-- Claim C5: a failing get_container leaves the pool map exactly as it
was and can only fail for a profile that was absent from the pool (so the
profile is never left stuck and a retry is possible); in particular an
unconfigured profile fails with the unknown-profile RequestException and
the state is returned untouched. -/
theorem get_container_error_spec (env : Env) (s : SState) (profile : String) :
    (∀ e s' t, get_container env s profile = (Except.error e, s', t) →
      s'.vms = s.vms ∧ s.vms profile = none)
    ∧ (s.vms profile = none → s.config.profiles profile = none →
      get_container env s profile
        = (Except.error (Err.request ("Unknown profile \"" ++ profile ++ "\"")), s, [])) := by
  constructor
  · intro e s' t h
    unfold get_container at h
    cases hv : s.vms profile with
    | some m =>
      rw [hv] at h
      simp at h
    | none =>
      refine ⟨?_, rfl⟩
      rw [hv] at h
      simp only [Option.isNone_none, if_true] at h
      cases hcv : create_vm env s profile with
      | mk ce crest =>
        cases crest with
        | mk cs ct =>
          rw [hcv] at h
          cases ce with
          | error e2 =>
            simp at h
            obtain ⟨h1, h2, h3⟩ := h
            subst h2
            exact create_vm_error_vms env s profile e2 cs ct hcv
          | ok u =>
            simp only at h
            cases hm : cs.vms profile with
            | some m =>
              rw [hm] at h
              simp at h
            | none =>
              have := create_vm_ok_vms env s profile u cs ct hcv
              rw [hm] at this
              simp at this
  · intro hv hp
    unfold get_container create_vm
    rw [hv, hp]
    simp

/-- Witness for C5: requesting the unconfigured profile ghost fails with
the unknown-profile RequestException, returns the state untouched, and the
pool never contained the profile. -/
theorem get_container_error_witness :
    get_container envW sW ghostProfile
      = (Except.error (Err.request ("Unknown profile \"" ++ ghostProfile ++ "\"")), sW, [])
    ∧ sW.vms ghostProfile = none :=
  ⟨(get_container_error_spec envW sW ghostProfile).2 rfl rfl, rfl⟩


end Cloudexec
